import Mathlib

/-!
# Puppy Bowl roster client (`script.js`)

A shallow embedding of the browser script: the JavaScript values it handles,
the network it talks to, the part of the page it rewrites, and its functions as
state-passing programs over that world.

Conventions of the embedding

* Values are the JSON data domain plus `undefined` and `NaN`. A number is either `NaN`
  or a safe integer (`|n| ≤ 2^53 - 1`), which is what `num` can hold; fractions, larger
  magnitudes, infinities, symbols and functions are not values of the embedding.
* String conversion (`toStr`) can throw, as `ToString` does on an object that has an own
  `toString` property.
* `await` is sequential composition: the script awaits every promise it uses before
  going on, and interleavings of several user actions are not modelled.
* `card.innerHTML = ...` is embedded by the elements the template literal spells out.
  The parse is followed exactly when the interpolated strings are free of characters
  that mean something to the HTML parser (`markupFree`), including the cut of the unquoted
  attribute `id=...` at white space; otherwise the card is flagged (`parsed = false`) and
  its fields only record what was written into the template's slots.
* The page (`index.html`) is not part of the sources; `<main>` and
  `<form id="new-player-form">` are taken to exist and to be the only places holding
  elements of class `getDetails` / `removePlayer` or with id `goBack`.
-/

namespace PuppyBowl

/-! ## JavaScript values -/

/-- Largest safe integer, `Number.MAX_SAFE_INTEGER = 2^53 - 1`. -/
def maxSafeInteger : Nat := 9007199254740991

/-- JavaScript values the script can meet: parsed JSON, `undefined` and `NaN`. A number
`num n` is a safe integer: it is an exact double and prints as its decimal digits. -/
inductive JSVal where
  | undefined
  | null
  | bool (b : Bool)
  | num (n : Int) (safe : n.natAbs ≤ maxSafeInteger)
  | nan
  | str (s : String)
  | arr (xs : List JSVal)
  | obj (fields : List (String × JSVal))

/-- Values a JavaScript `throw` / promise rejection carries in this script. -/
inductive Thrown where
  /-- Property read on `undefined`/`null`, a call of something that is no function, or a
  string conversion of an object that has no usable `toString`. -/
  | typeError
  /-- Rejection of `fetch` itself (network failure). -/
  | networkError
  /-- Rejection of `res.json()` (body is not JSON). -/
  | syntaxError
  deriving DecidableEq, Repr

namespace JSVal

/-- Whether the value is `undefined` or `null` (property reads on these throw). -/
def isNullish : JSVal → Bool
  | undefined => true
  | null => true
  | _ => false

mutual
/-- String form of a value, as a template literal `${v}` computes it (ToString); `none`
when the conversion throws its `TypeError`. An array prints as its elements joined by
commas. An object prints through `Object.prototype.toString` as `[object Object]`, unless
it has an own property `toString`: that one, being data, is not callable, `valueOf` yields
no primitive either, and the conversion throws. -/
def toStr : JSVal → Option String
  | undefined => some "undefined"
  | null => some "null"
  | bool b => some (if b then "true" else "false")
  | num n _ => some (toString n)
  | nan => some "NaN"
  | str s => some s
  | arr xs => joinElems xs
  | obj fields =>
    match fields.lookup "toString" with
    | some _ => none
    | none => some "[object Object]"
termination_by structural v => v
/-- Body of `Array.prototype.join(",")`: nullish elements print as the empty string,
and a throw of an element's conversion ends the join. -/
def joinElems : List JSVal → Option String
  | [] => some ""
  | x :: rest =>
    match (match x with
      | undefined => some ""
      | null => some ""
      | v => toStr v) with
    | none => none
    | some first =>
      match joinElems rest with
      | none => none
      | some others => some (first ++ (match rest with | [] => "" | _ => ",") ++ others)
termination_by structural xs => xs
end

/-- Property read `v.key` for a data property `key` (none of the keys the script reads
is a built-in of strings, numbers, booleans or arrays): throws on `undefined`/`null`,
looks the key up in an object, and is `undefined` on every other value. -/
def getProp (v : JSVal) (key : String) : Except Thrown JSVal :=
  match v with
  | undefined => .error .typeError
  | null => .error .typeError
  | obj fields => .ok ((fields.lookup key).getD undefined)
  | _ => .ok undefined

/-- Strict equality `a === b` against a primitive: same type and same value; `NaN` is
equal to nothing, and an array or object is never identical to a literal. -/
def strictEq : JSVal → JSVal → Bool
  | undefined, undefined => true
  | null, null => true
  | bool a, bool b => a == b
  | num a _, num b _ => a == b
  | str a, str b => a == b
  | _, _ => false

mutual
/-- The JSON document `JSON.stringify(v)` writes, kept as a value instead of as text:
`NaN` becomes `null`, an `undefined` array element becomes `null`, an `undefined`
property is left out. (`undefined` at top level stays `undefined`: nothing is written.) -/
def jsonStringify : JSVal → JSVal
  | undefined => undefined
  | null => null
  | bool b => bool b
  | num n h => num n h
  | nan => null
  | str s => str s
  | arr xs => arr (stringifyElems xs)
  | obj fields => obj (stringifyFields fields)
termination_by structural v => v
/-- Elements of an array under `JSON.stringify`. -/
def stringifyElems : List JSVal → List JSVal
  | [] => []
  | x :: rest =>
    (match x with
      | undefined => null
      | v => jsonStringify v) :: stringifyElems rest
termination_by structural xs => xs
/-- Properties of an object under `JSON.stringify`. -/
def stringifyFields : List (String × JSVal) → List (String × JSVal)
  | [] => []
  | (k, x) :: rest =>
    match x with
    | undefined => stringifyFields rest
    | v => (k, jsonStringify v) :: stringifyFields rest
termination_by structural fs => fs
end

/-- Value of a decimal digit, if the character is one. -/
def digitValue (c : Char) : Option Nat :=
  if c.isDigit then some (c.toNat - 48) else none

/-- Reads a run of decimal digits, most significant first. -/
def readDigits : List Char → Nat → Option Nat
  | [], acc => some acc
  | c :: cs, acc =>
    match digitValue c with
    | some d => readDigits cs (10 * acc + d)
    | none => none

/-- The coercion `Number(s)` on the strings an option of the team `<select>` can hold:
the empty string is `0`, a run of decimal digits is that number, a word such as
`"null"` is `NaN`. (Signs, blanks, fractions, exponents, radix prefixes and digit runs
beyond the safe integers do not occur among the option values and are not covered.) -/
def toNumber (s : String) : JSVal :=
  match readDigits s.data 0 with
  | some n => if h : (n : Int).natAbs ≤ maxSafeInteger then num n h else nan
  | none => nan

end JSVal

open JSVal
/-! ## The network -/

/-- Request as `fetch(url, options)` sends it. `url` is the string handed to `fetch`,
before any percent-encoding by the browser; `body` is the JSON document of the body
text (see `JSVal.jsonStringify`); a request without options is a bodiless `GET`. -/
structure Request where
  method : String
  url : String
  headers : List (String × String)
  body : Option JSVal

/-- Response object a resolved `fetch` hands back. The script reads nothing of it but
`res.json()`: `json = none` is a body whose parse rejects. -/
structure Response where
  status : Nat
  json : Option JSVal

/-- How one `fetch` call settles. A non-success HTTP status is a resolved fetch. -/
inductive Outcome where
  | rejected
  | resolved (res : Response)

/-- The remote service: it settles each request knowing every request sent so far
(the last element of the list is the request being settled). -/
abbrev Network := List Request → Outcome

/-! ## The page -/

/-- Event listeners the script registers, named by the function body they run. -/
inductive Listener where
  /-- Listener `(e) => renderSinglePlayer(e.target.id)`. -/
  | seeDetails
  /-- Listener `(e) => removePlayer(e.target.id)`. -/
  | removeFromRoster
  /-- Listener `async () => renderAllPlayers(await fetchAllPlayers())`. -/
  | backToAll
  deriving DecidableEq, Repr

/-- Element `<button class=… id=…>text</button>` with its click listeners. -/
structure Button where
  classes : List String
  id : String
  text : String
  listeners : List Listener
  deriving DecidableEq, Repr

/-- Element `<div class="card …">` as the two templates build it: one image, one heading,
some paragraphs and some buttons. `parsed` tells whether the fields are what the HTML
parser builds from the markup written into `innerHTML`: it is `true` when every
interpolated string was free of markup characters; when it is `false` the fields only
record what was written into the slots of the template. -/
structure Card where
  classes : List String
  parsed : Bool
  imgSrc : String
  imgAlt : String
  heading : String
  paragraphs : List String
  buttons : List Button
  deriving DecidableEq, Repr

/-- Characters that mean something to the HTML parser in text or in an attribute value,
or that it rewrites: NUL, CR, the two quotes, `&`, `<` and `>`. -/
def markupChar (c : Char) : Bool :=
  c.toNat == 0 || c.toNat == 13 || c.toNat == 34 || c.toNat == 38 || c.toNat == 39
    || c.toNat == 60 || c.toNat == 62

/-- A string the HTML parser takes as it stands, as text and inside a quoted attribute. -/
def markupFree (s : String) : Bool := s.data.all (fun c => !markupChar c)

/-- White space of HTML: tab, line feed, form feed, carriage return, space. -/
def htmlSpace (c : Char) : Bool :=
  c.toNat == 9 || c.toNat == 10 || c.toNat == 12 || c.toNat == 13 || c.toNat == 32

/-- Value the HTML parser gives an unquoted attribute written as `name=` followed by a
markup-free string `s`: white space before the value is skipped and the value ends at the
next white space (what follows becomes further attributes of the element). -/
def unquotedValue (s : String) : String :=
  String.mk ((s.data.dropWhile htmlSpace).takeWhile (fun c => !htmlSpace c))

/-- Contents of `<form id="new-player-form">`: ids of the controls its markup holds
and the number of `submit` listeners registered on it. -/
structure FormState where
  controls : List String
  submitListeners : Nat
  deriving DecidableEq, Repr

/-- Calls recorded for the refresh contract: each call of `fetchAllPlayers` with the
value it resolved with, and each call of `renderAllPlayers` with its argument. -/
inductive Call where
  | fetchAllPlayers (yielded : JSVal)
  | renderAllPlayers (playerList : JSVal)

/-- Everything the script can observe or change. -/
structure World where
  /-- The remote service. -/
  net : Network
  /-- Requests sent so far, oldest first. -/
  requests : List Request
  /-- Lines written with `console.error`: the message and the error value. -/
  console : List (String × Thrown)
  /-- Children of `<main>`. -/
  main : List Card
  /-- The creation form. -/
  form : FormState
  /-- Record of the calls of `fetchAllPlayers` and `renderAllPlayers`, oldest first. -/
  calls : List Call

/-! ## Programs -/

/-- Script code returning an `α`: it runs in a world, changes it, and either returns or
throws. For an `async` function this is how its promise settles. -/
def JS (α : Type) : Type := World → Except Thrown α × World

namespace JS

/-- Statement `return a`. -/
def ret {α : Type} (a : α) : JS α := fun w => (.ok a, w)

/-- Sequencing `x; f`: a throw in `x` skips `f`. -/
def andThen {α β : Type} (x : JS α) (f : α → JS β) : JS β := fun w =>
  match x w with
  | (.ok a, w1) => f a w1
  | (.error e, w1) => (.error e, w1)

instance : Monad JS where
  pure := ret
  bind := andThen

/-- Statement `throw e`. -/
def raise {α : Type} (e : Thrown) : JS α := fun w => (.error e, w)

/-- Statement `try { body } catch (err) { handler }`. -/
def tryCatch {α : Type} (body : JS α) (handler : Thrown → JS α) : JS α := fun w =>
  match body w with
  | (.ok a, w1) => (.ok a, w1)
  | (.error e, w1) => handler e w1

/-- A pure computation that may throw, run as script code. -/
def lift {α : Type} (x : Except Thrown α) : JS α := fun w => (x, w)

/-- Runs `f` on each element in order, as `Array.prototype.forEach` does; a throw ends
the loop. -/
def forEach {α : Type} (f : α → JS Unit) : List α → JS Unit
  | [] => ret ()
  | x :: rest => andThen (f x) (fun _ => forEach f rest)

end JS

open JS

/-- Call `console.error(msg, err)`. -/
def consoleError (msg : String) (err : Thrown) : JS Unit := fun w =>
  (.ok (), { w with console := w.console ++ [(msg, err)] })

/-- Appends an entry to the call record. -/
def record (c : Call) : JS Unit := fun w =>
  (.ok (), { w with calls := w.calls ++ [c] })

/-- Call `await fetch(url, options)`: the request is sent and settled by the network. -/
def fetch (req : Request) : JS Response := fun w =>
  let w1 := { w with requests := w.requests ++ [req] }
  match w.net (w.requests ++ [req]) with
  | .rejected => (.error .networkError, w1)
  | .resolved res => (.ok res, w1)

/-- Call `await res.json()`. -/
def Response.parse (res : Response) : JS JSVal :=
  match res.json with
  | some v => ret v
  | none => raise .syntaxError

/-- Property read `v.key` inside script code. -/
def prop (v : JSVal) (key : String) : JS JSVal := lift (getProp v key)

/-- Interpolation `${v}` inside a template literal: the string form of `v`, or a throw. -/
def interpolate (v : JSVal) : JS String :=
  match toStr v with
  | some s => ret s
  | none => raise .typeError

/-- Constant `cohortName`. -/
def cohortName : String := "2501-ftb-et-web-pt"

/-- Constant `API_URL`. -/
def API_URL : String := "https://fsa-puppy-bowl.herokuapp.com/api/" ++ cohortName

/-- Request of `fetch(url)` without options. -/
def getRequest (url : String) : Request :=
  { method := "GET", url := url, headers := [], body := none }

/-! ## API client -/

/-- Function `fetchAllPlayers` (script.js 10-18). -/
def fetchAllPlayers : JS JSVal := do
  let yielded ← JS.tryCatch
    (do
      let res ← fetch (getRequest (API_URL ++ "/players"))
      let data ← res.parse
      let inner ← prop data "data"
      prop inner "players")
    (fun err => do
      consoleError "Uh oh, trouble fetching players!" err
      pure undefined)
  record (.fetchAllPlayers yielded)
  pure yielded

/-- Function `fetchSinglePlayer` (script.js 25-33). The `catch` block interpolates
`playerId` again to build its message. -/
def fetchSinglePlayer (playerId : JSVal) : JS JSVal :=
  JS.tryCatch
    (do
      let idText ← interpolate playerId
      let res ← fetch (getRequest (API_URL ++ "/players/" ++ idText))
      let data ← res.parse
      let inner ← prop data "data"
      prop inner "player")
    (fun err => do
      let idText ← interpolate playerId
      consoleError ("Oh no, trouble fetching player #" ++ idText ++ "!") err
      pure undefined)

/-! ## View renderer -/

/-- Call `main.replaceChildren(...cards)`. -/
def mainReplaceChildren (cards : List Card) : JS Unit := fun w =>
  (.ok (), { w with main := cards })

/-- Call `main.appendChild(card)`. -/
def mainAppendChild (card : Card) : JS Unit := fun w =>
  (.ok (), { w with main := w.main ++ [card] })

/-- Registers `l` for `click` on a button if it carries class `cls`. -/
def Button.listenIfClass (cls : String) (l : Listener) (b : Button) : Button :=
  if b.classes.contains cls then { b with listeners := b.listeners ++ [l] } else b

/-- Loop `document.querySelectorAll("." + cls).forEach(b => b.addEventListener("click", l))`:
every button of the page with class `cls` gets the listener. -/
def addClickListenerToClass (cls : String) (l : Listener) : JS Unit := fun w =>
  (.ok (), { w with main := w.main.map (fun c =>
      { c with buttons := c.buttons.map (Button.listenIfClass cls l) }) })

/-- Registers `l` on the first button with the given id, if there is one. -/
def listenFirstButton (id : String) (l : Listener) : List Button → Option (List Button)
  | [] => none
  | b :: rest =>
    if b.id == id then some ({ b with listeners := b.listeners ++ [l] } :: rest)
    else (listenFirstButton id l rest).map (fun bs => b :: bs)

/-- Registers `l` on the first button with the given id among the cards, in document
order, if there is one. -/
def listenFirstCard (id : String) (l : Listener) : List Card → Option (List Card)
  | [] => none
  | c :: rest =>
    match listenFirstButton id l c.buttons with
    | some bs => some ({ c with buttons := bs } :: rest)
    | none => (listenFirstCard id l rest).map (fun cs => c :: cs)

/-- Statements `const b = document.querySelector("#" + id); b.addEventListener("click", l)`:
with no such element `b` is `null` and the call throws. -/
def addClickListenerToId (id : String) (l : Listener) : JS Unit := fun w =>
  match listenFirstCard id l w.main with
  | some cards => (.ok (), { w with main := cards })
  | none => (.error .typeError, w)

/-- Body of the `forEach` callback of `renderAllPlayers` (script.js 107-118): builds the
summary card of one player and appends it to `<main>`. The template interpolates
`player.name`, `player.id` and `player.imageUrl`; the two `id=` attributes are written
without quotes. -/
def appendPlayerCard (player : JSVal) : JS Unit := do
  let name ← prop player "name"
  let nameText ← interpolate name
  let id ← prop player "id"
  let idText ← interpolate id
  let imageUrl ← prop player "imageUrl"
  let imageText ← interpolate imageUrl
  mainAppendChild
    { classes := ["card"]
      parsed := markupFree nameText && markupFree idText && markupFree imageText
      imgSrc := imageText
      imgAlt := nameText
      heading := nameText
      paragraphs := ["Player ID: " ++ idText]
      buttons :=
        [ { classes := ["getDetails"], id := unquotedValue idText, text := "Get Details",
            listeners := [] },
          { classes := ["removePlayer"], id := unquotedValue idText,
            text := "Remove from Roster", listeners := [] } ] }

/-- Function `renderAllPlayers` (script.js 104-131). `playerList.forEach` throws unless
`playerList` is an array. -/
def renderAllPlayers (playerList : JSVal) : JS Unit := do
  record (.renderAllPlayers playerList)
  mainReplaceChildren []
  match playerList with
  | arr players => forEach appendPlayerCard players
  | _ => raise .typeError
  addClickListenerToClass "getDetails" .seeDetails
  addClickListenerToClass "removePlayer" .removeFromRoster

/-! ## Mutations -/

/-- Headers both mutation requests send. -/
def jsonHeaders : List (String × String) := [("Content-Type", "application/json")]

/-- Function `addNewPlayer` (script.js 40-59). -/
def addNewPlayer (playerObj : JSVal) : JS Unit :=
  JS.tryCatch
    (do
      let name ← prop playerObj "name"
      let nameText ← interpolate name
      let breed ← prop playerObj "breed"
      let breedText ← interpolate breed
      let status ← prop playerObj "status"
      let statusText ← interpolate status
      let imageUrl ← prop playerObj "imageUrl"
      let imageText ← interpolate imageUrl
      let teamId ← prop playerObj "teamId"
      let teamText ← interpolate teamId
      let _res ← fetch
        { method := "POST"
          url := API_URL ++ "/players"
          headers := jsonHeaders
          body := some (jsonStringify (obj
            [ ("name", str nameText),
              ("breed", str breedText),
              ("status", str statusText),
              ("imageUrl", str imageText),
              ("teamId", str teamText) ])) }
      let players ← fetchAllPlayers
      renderAllPlayers players)
    (fun err => consoleError "Oops, something went wrong with adding that player!" err)

/-- Function `removePlayer` (script.js 65-80). The `catch` block interpolates `playerId`
again to build its message. -/
def removePlayer (playerId : JSVal) : JS Unit :=
  JS.tryCatch
    (do
      let idText ← interpolate playerId
      let _res ← fetch
        { method := "DELETE"
          url := API_URL ++ "/players/" ++ idText
          headers := jsonHeaders
          body := none }
      let players ← fetchAllPlayers
      renderAllPlayers players)
    (fun err => do
      let idText ← interpolate playerId
      consoleError ("Whoops, trouble removing player #" ++ idText ++ " from the roster!") err)

/-- Function `renderSinglePlayer` (script.js 146-180). -/
def renderSinglePlayer (playerId : JSVal) : JS Unit := do
  let player ← fetchSinglePlayer playerId
  let teamId ← prop player "teamId"
  let teamName :=
    if strictEq teamId (num 4943 (by decide)) then "Fluff"
    else if strictEq teamId (num 4942 (by decide)) then "Ruff"
    else "None"
  let playerStatus ← prop player "status"
  let status :=
    if strictEq playerStatus (str "field") then "Field"
    else if strictEq playerStatus (str "bench") then "Bench"
    else "None"
  let imageUrl ← prop player "imageUrl"
  let imageText ← interpolate imageUrl
  let name ← prop player "name"
  let nameText ← interpolate name
  let id ← prop player "id"
  let idText ← interpolate id
  let breed ← prop player "breed"
  let breedText ← interpolate breed
  mainReplaceChildren
    [ { classes := ["card", "single"]
        parsed := markupFree imageText && markupFree nameText && markupFree idText
          && markupFree breedText
        imgSrc := imageText
        imgAlt := nameText
        heading := "Name: " ++ nameText
        paragraphs :=
          [ "Player ID: " ++ idText,
            "Breed: " ++ breedText,
            "Team: " ++ teamName,
            "Status: " ++ status ]
        buttons :=
          [ { classes := ["getDetails"], id := "goBack", text := " Back to All Players ",
              listeners := [] } ] } ]
  addClickListenerToId "goBack" .backToAll

/-! ## Creation form -/

/-- Options of `<select id="status">`. -/
inductive StatusOption where
  | bench
  | field
  deriving DecidableEq, Repr

/-- Attribute `value` of a status option. -/
def StatusOption.value : StatusOption → String
  | .bench => "bench"
  | .field => "field"

/-- Options of `<select id="team">`. -/
inductive TeamOption where
  | fluff
  | ruff
  | noTeam
  deriving DecidableEq, Repr

/-- Attribute `value` of a team option (`<option value=null>` holds the text `null`). -/
def TeamOption.value : TeamOption → String
  | .fluff => "4943"
  | .ruff => "4942"
  | .noTeam => "null"

/-- Current values of the form's controls when it is submitted. -/
structure FormValues where
  playerName : String
  playerBreed : String
  playerImageUrl : String
  status : StatusOption
  team : TeamOption
  deriving DecidableEq, Repr

/-- Object `newPlayer` the submit listener builds from the controls (script.js 207-218). -/
def candidate (f : FormValues) : JSVal :=
  obj
    [ ("name", str f.playerName),
      ("breed", str f.playerBreed),
      ("status", str f.status.value),
      ("imageUrl", str f.playerImageUrl),
      ("teamId", toNumber f.team.value) ]

/-- Listener of the form's `submit` event (script.js 205-237); `preventDefault` changes
nothing the embedding keeps. -/
def submitHandler (f : FormValues) : JS Unit :=
  let newPlayer := candidate f
  JS.tryCatch
    (do
      let name ← prop newPlayer "name"
      let nameText ← interpolate name
      let breed ← prop newPlayer "breed"
      let breedText ← interpolate breed
      let status ← prop newPlayer "status"
      let statusText ← interpolate status
      let imageUrl ← prop newPlayer "imageUrl"
      let imageText ← interpolate imageUrl
      let teamId ← prop newPlayer "teamId"
      let _res ← fetch
        { method := "POST"
          url := API_URL ++ "/players"
          headers := jsonHeaders
          body := some (jsonStringify (obj
            [ ("name", str nameText),
              ("breed", str breedText),
              ("status", str statusText),
              ("imageUrl", str imageText),
              ("teamId", teamId) ])) }
      let players ← fetchAllPlayers
      renderAllPlayers players)
    (fun err => consoleError "Uh oh, trouble rendering the new player form!" err)

/-- Function `renderNewPlayerForm` (script.js 187-238): writes the form's markup and
registers the submit listener. -/
def renderNewPlayerForm : JS Unit := fun w =>
  (.ok (), { w with form :=
      { controls := ["playerName", "playerBreed", "playerImageUrl", "status", "team"]
        submitListeners := w.form.submitListeners + 1 } })

/-! ## Bootstrap and events -/

/-- Function `init` (script.js 243-248). -/
def init : JS Unit := do
  let players ← fetchAllPlayers
  renderAllPlayers players
  renderNewPlayerForm

/-- What a click listener runs on a button whose `id` attribute is `targetId`
(`e.target.id` is always a string). -/
def Listener.run (l : Listener) (targetId : String) : JS Unit :=
  match l with
  | .seeDetails => renderSinglePlayer (str targetId)
  | .removeFromRoster => removePlayer (str targetId)
  | .backToAll => do
    let players ← fetchAllPlayers
    renderAllPlayers players

/-! ## Vocabulary of the properties -/

/-- Value of property `key` of a value that is neither `undefined` nor `null`. -/
def field (v : JSVal) (key : String) : JSVal :=
  match getProp v key with
  | .ok x => x
  | .error _ => undefined

/-- String form of a value that has one (the empty string stands in when it has none). -/
def textOf (v : JSVal) : String :=
  match toStr v with
  | some s => s
  | none => ""

/-- The value has a string form and that string is free of markup characters. -/
def plainText (v : JSVal) : Bool :=
  match toStr v with
  | some s => markupFree s
  | none => false

/-- The value has a string form free of markup characters and of white space. -/
def plainToken (v : JSVal) : Bool :=
  match toStr v with
  | some s => markupFree s && s.data.all (fun c => !htmlSpace c)
  | none => false

/-- A player the summary template renders as it stands: not `undefined`/`null`, with a
name and an image address that are plain text and an id that is a plain token. -/
def plainPlayer (p : JSVal) : Bool :=
  !p.isNullish && plainText (field p "name") && plainToken (field p "id")
    && plainText (field p "imageUrl")

/-- The request or the parse of its body failed: `fetch` rejected or `res.json()` did. -/
def requestOrParseFailed : Outcome → Bool
  | .rejected => true
  | .resolved res => res.json.isNone

/-- How the network settled the first request sent between the worlds `before` and
`after`. -/
def firstOutcome (before after : World) : Outcome :=
  before.net (after.requests.take (before.requests.length + 1))

/-- Refresh contract between two worlds: in between, `fetchAllPlayers` was called exactly
once, `renderAllPlayers` exactly once, and the latter received what the former yielded. -/
def RefreshedOnce (before after : World) : Prop :=
  ∃ v, after.calls = before.calls ++ [Call.fetchAllPlayers v, Call.renderAllPlayers v]

/-- Code that sends nothing and calls neither `fetchAllPlayers` nor `renderAllPlayers`:
it leaves the request log, the call record and the network as they were. -/
def Quiet {α : Type} (x : JS α) : Prop :=
  ∀ w, (x w).2.calls = w.calls ∧ (x w).2.requests = w.requests ∧ (x w).2.net = w.net

/-- Buttons of a card that carry class `cls`. -/
def Card.buttonsOfClass (c : Card) (cls : String) : List Button :=
  c.buttons.filter (fun b => b.classes.contains cls)

/-- Summary card of one plain player once `renderAllPlayers` has returned: the elements of
the template, with the listeners its two `querySelectorAll` loops registered. -/
def listedCard (player : JSVal) : Card :=
  { classes := ["card"]
    parsed := true
    imgSrc := textOf (field player "imageUrl")
    imgAlt := textOf (field player "name")
    heading := textOf (field player "name")
    paragraphs := ["Player ID: " ++ textOf (field player "id")]
    buttons :=
      [ { classes := ["getDetails"], id := textOf (field player "id"), text := "Get Details",
          listeners := [.seeDetails] },
        { classes := ["removePlayer"], id := textOf (field player "id"),
          text := "Remove from Roster", listeners := [.removeFromRoster] } ] }

/-- A page with nothing rendered, nothing sent and nothing logged, in front of `net`. -/
def freshWorld (net : Network) : World :=
  { net := net, requests := [], console := [], main := [],
    form := { controls := [], submitListeners := 0 }, calls := [] }

/-- Player of the example in the list of testable properties. -/
def rex : JSVal :=
  obj [("id", num 1 (by decide)), ("name", str "Rex"), ("imageUrl", str "x.png")]

/-- A second player, on team 4943 and on the field. -/
def bella : JSVal :=
  obj [("id", num 2 (by decide)), ("name", str "Bella"), ("breed", str "Beagle"),
    ("status", str "field"), ("imageUrl", str "b.png"), ("teamId", num 4943 (by decide))]

/-- Envelope answering both the list and the single request. -/
def rexEnvelope : JSVal := obj [("data", obj [("players", arr [rex, bella]), ("player", bella)])]

/-- A service that answers every request with `rexEnvelope`. -/
def serving : World := freshWorld (fun _ => .resolved { status := 200, json := some rexEnvelope })

/-- A service that cannot be reached: every `fetch` rejects. -/
def offline : World := freshWorld (fun _ => .rejected)

/-- A page showing one stale card in front of the reachable service. -/
def staleList : World :=
  { serving with main :=
      [ { classes := ["card"], parsed := true, imgSrc := "", imgAlt := "Old", heading := "Old",
          paragraphs := ["Player ID: 9"], buttons := [] } ] }

/-- Form contents of the submission example. -/
def rexForm : FormValues :=
  { playerName := "Rex", playerBreed := "Lab", playerImageUrl := "x.png",
    status := .bench, team := .fluff }

/-- A value without string form: what `JSON.parse` yields for `\x7b"toString":1\x7d`. -/
def stubborn : JSVal := obj [("toString", num 1 (by decide))]

/-- A player whose id holds a blank. -/
def spaced : JSVal := obj [("id", str "a b"), ("name", str "Rex"), ("imageUrl", str "x.png")]

/-- A player on team 4943 and on the field whose name has no string form. -/
def unnamed : JSVal :=
  obj [("id", num 3 (by decide)), ("name", stubborn), ("status", str "field"),
    ("teamId", num 4943 (by decide))]

/-- A page showing one stale card in front of a service that answers every request with
the player `unnamed`. -/
def servingUnnamed : World :=
  { staleList with
    net := fun _ => Outcome.resolved (Response.mk 200
      (some (obj [("data", obj [("player", unnamed)])]))) }

/-! ## Basic facts about programs -/

theorem JS.bind_eq {α β : Type} (x : JS α) (f : α → JS β) : x >>= f = JS.andThen x f := rfl

theorem JS.pure_eq {α : Type} (a : α) : (pure a : JS α) = JS.ret a := rfl

/-- A `try`/`catch` whose handler returns normally returns normally. -/
theorem JS.tryCatch_returns {α : Type} (body : JS α) (handler : Thrown → JS α)
    (h : ∀ e w, ∃ a, (handler e w).1 = .ok a) (w : World) :
    ∃ a, (JS.tryCatch body handler w).1 = .ok a := by
  unfold JS.tryCatch
  rcases hb : body w with ⟨r, w1⟩
  cases r with
  | ok a => exact ⟨a, rfl⟩
  | error e => exact h e w1

theorem getProp_of_not_nullish (v : JSVal) (key : String) (h : v.isNullish = false) :
    getProp v key = .ok (field v key) := by
  cases v <;> simp_all [getProp, field, isNullish]

/-! ## API client: results -/

/-- C5. When the list request resolves, its body parses to `r`, and `r.data.players`
evaluates to `players`, `fetchAllPlayers` resolves with exactly that value: the same
array, nothing added, dropped, reordered or transformed. -/
theorem fetchAllPlayers_yields_data_players (w : World) (res : Response)
    (r inner players : JSVal)
    (hnet : w.net (w.requests ++ [getRequest (API_URL ++ "/players")]) = .resolved res)
    (hjson : res.json = some r)
    (hdata : getProp r "data" = .ok inner)
    (hplayers : getProp inner "players" = .ok players) :
    (fetchAllPlayers w).1 = .ok players := by
  simp [fetchAllPlayers, JS.bind_eq, JS.pure_eq, JS.andThen, JS.tryCatch, fetch,
    Response.parse, prop, JS.lift, JS.ret, record, hnet, hjson, hdata, hplayers]

/-- Instance of C5: the reachable service of the example yields its two players. -/
theorem fetchAllPlayers_yields_data_players_witness :
    (fetchAllPlayers serving).1 = .ok (arr [rex, bella]) :=
  fetchAllPlayers_yields_data_players serving { status := 200, json := some rexEnvelope }
    rexEnvelope (obj [("players", arr [rex, bella]), ("player", bella)]) (arr [rex, bella])
    rfl rfl rfl rfl

/-- C6. For every id with a string form `idText`, `fetchSinglePlayer id` sends exactly
one request: method `GET`, URL `API_URL + "/players/" + idText`, no headers, no body; and
when that request resolves with a body parsing to `r`, the call resolves with exactly
`r.data.player`. -/
theorem fetchSinglePlayer_url_and_result (w : World) (id : JSVal) (idText : String)
    (res : Response) (r inner player : JSVal)
    (hid : toStr id = some idText)
    (hnet : w.net (w.requests ++ [Request.mk "GET" (API_URL ++ "/players/" ++ idText) [] none])
      = .resolved res)
    (hjson : res.json = some r)
    (hdata : getProp r "data" = .ok inner)
    (hplayer : getProp inner "player" = .ok player) :
    (∃ req, (fetchSinglePlayer id w).2.requests = w.requests ++ [req]
        ∧ req.method = "GET"
        ∧ req.url = "https://fsa-puppy-bowl.herokuapp.com/api/2501-ftb-et-web-pt/players/"
            ++ idText
        ∧ req.headers = []
        ∧ req.body = none)
      ∧ (fetchSinglePlayer id w).1 = .ok player := by
  have hreq : getRequest (API_URL ++ "/players/" ++ idText)
      = Request.mk "GET" (API_URL ++ "/players/" ++ idText) [] none := rfl
  have hurl : API_URL ++ "/players/" ++ idText
      = "https://fsa-puppy-bowl.herokuapp.com/api/2501-ftb-et-web-pt/players/" ++ idText := by
    have h : API_URL ++ "/players/"
        = "https://fsa-puppy-bowl.herokuapp.com/api/2501-ftb-et-web-pt/players/" := by decide
    rw [h]
  refine ⟨⟨Request.mk "GET" (API_URL ++ "/players/" ++ idText) [] none, ?_, rfl, hurl, rfl,
    rfl⟩, ?_⟩
  · simp [fetchSinglePlayer, JS.bind_eq, JS.pure_eq, JS.andThen, JS.tryCatch, fetch,
      Response.parse, prop, interpolate, JS.lift, JS.raise, JS.ret, JS.ret, hid, hreq, hnet, hjson, hdata,
      hplayer]
  · simp [fetchSinglePlayer, JS.bind_eq, JS.pure_eq, JS.andThen, JS.tryCatch, fetch,
      Response.parse, prop, interpolate, JS.lift, JS.raise, JS.ret, JS.ret, hid, hreq, hnet, hjson, hdata,
      hplayer]

/-- Instance of C6: player 2 is requested at `/players/2` and comes back unchanged. -/
theorem fetchSinglePlayer_url_and_result_witness :
    toStr (num 2 (by decide)) = some "2"
      ∧ (∃ req, (fetchSinglePlayer (num 2 (by decide)) serving).2.requests
            = serving.requests ++ [req]
          ∧ req.method = "GET"
          ∧ req.url = "https://fsa-puppy-bowl.herokuapp.com/api/2501-ftb-et-web-pt/players/"
              ++ "2"
          ∧ req.headers = []
          ∧ req.body = none)
      ∧ (fetchSinglePlayer (num 2 (by decide)) serving).1 = .ok bella :=
  ⟨rfl, fetchSinglePlayer_url_and_result serving (num 2 (by decide)) "2"
    { status := 200, json := some rexEnvelope } rexEnvelope
    (obj [("players", arr [rex, bella]), ("player", bella)]) bella rfl rfl rfl rfl rfl⟩

/-! ## API client: what is raised -/

theorem fetchAllPlayers_returns (w : World) : ∃ v, (fetchAllPlayers w).1 = .ok v := by
  unfold fetchAllPlayers
  simp only [JS.bind_eq, JS.pure_eq]
  obtain ⟨a, ha⟩ := JS.tryCatch_returns
    (JS.andThen (fetch (getRequest (API_URL ++ "/players"))) fun res =>
      JS.andThen res.parse fun data =>
        JS.andThen (prop data "data") fun inner => prop inner "players")
    (fun err => JS.andThen (consoleError "Uh oh, trouble fetching players!" err)
      fun _ => JS.ret undefined)
    (fun e w => ⟨undefined, rfl⟩) w
  refine ⟨a, ?_⟩
  simp only [JS.andThen, record, JS.ret]
  split
  · next b w1 hb =>
    rw [hb] at ha
    simpa using ha
  · next e w1 hb =>
    rw [hb] at ha
    simp at ha

theorem fetchAllPlayers_failed (w : World)
    (h : requestOrParseFailed (w.net (w.requests ++ [getRequest (API_URL ++ "/players")]))
      = true) :
    (fetchAllPlayers w).1 = .ok undefined := by
  cases hnet : w.net (w.requests ++ [getRequest (API_URL ++ "/players")]) with
  | rejected =>
    simp [fetchAllPlayers, JS.bind_eq, JS.pure_eq, JS.andThen, JS.tryCatch, fetch,
      consoleError, JS.ret, record, hnet]
  | resolved res =>
    rw [hnet] at h
    have hjson : res.json = none := by
      simpa [requestOrParseFailed] using h
    simp [fetchAllPlayers, JS.bind_eq, JS.pure_eq, JS.andThen, JS.tryCatch, fetch,
      Response.parse, JS.raise, consoleError, JS.ret, record, hnet, hjson]

theorem fetchSinglePlayer_failed (w : World) (id : JSVal) (idText : String)
    (hid : toStr id = some idText)
    (h : requestOrParseFailed
      (w.net (w.requests ++ [getRequest (API_URL ++ "/players/" ++ idText)])) = true) :
    (fetchSinglePlayer id w).1 = .ok undefined := by
  cases hnet : w.net (w.requests ++ [getRequest (API_URL ++ "/players/" ++ idText)]) with
  | rejected =>
    simp [fetchSinglePlayer, JS.bind_eq, JS.pure_eq, JS.andThen, JS.tryCatch, fetch,
      interpolate, JS.lift, JS.raise, JS.ret, consoleError, JS.ret, hid, hnet]
  | resolved res =>
    rw [hnet] at h
    have hjson : res.json = none := by
      simpa [requestOrParseFailed] using h
    simp [fetchSinglePlayer, JS.bind_eq, JS.pure_eq, JS.andThen, JS.tryCatch, fetch,
      interpolate, JS.lift, JS.raise, JS.ret, Response.parse, JS.raise, consoleError, JS.ret, hid, hnet, hjson]

theorem consoleError_returns (msg : String) (e : Thrown) (w : World) :
    ∃ a, (consoleError msg e w).1 = .ok a := ⟨(), rfl⟩

/-- C3, as stated, fails: an id without string form (the object `JSON.parse` yields for
a text with an own `toString` entry) makes the template literal of the `try` block throw,
and the `catch` blocks of `fetchSinglePlayer` and `removePlayer` interpolate the id again
to build their message, so the `TypeError` escapes to the caller; nothing is sent and
nothing is logged. -/
theorem single_player_operations_raise_on_unprintable_id :
    (fetchSinglePlayer stubborn serving).1 = .error .typeError
      ∧ (removePlayer stubborn serving).1 = .error .typeError
      ∧ (fetchSinglePlayer stubborn serving).2.console = []
      ∧ (removePlayer stubborn serving).2.console = []
      ∧ (removePlayer stubborn serving).2.requests = [] :=
  ⟨rfl, rfl, rfl, rfl, rfl⟩

/-- C3, amended. Whatever the network does: `fetchAllPlayers` resolves, with `undefined`
when the request rejected or its body did not parse; `addNewPlayer` resolves for every
argument (also when the refreshed list is `undefined` and `renderAllPlayers` throws on it
inside the `try`); and for every id that has a string form, `fetchSinglePlayer` resolves,
with `undefined` when the request rejected or its body did not parse, and `removePlayer`
resolves. -/
theorem api_client_never_raises (w : World) (id playerObj : JSVal) (idText : String)
    (hid : toStr id = some idText) :
    (∃ v, (fetchAllPlayers w).1 = .ok v)
      ∧ (∃ v, (fetchSinglePlayer id w).1 = .ok v)
      ∧ (requestOrParseFailed (w.net (w.requests ++ [getRequest (API_URL ++ "/players")]))
            = false
          ∨ (fetchAllPlayers w).1 = .ok undefined)
      ∧ (requestOrParseFailed
            (w.net (w.requests ++ [getRequest (API_URL ++ "/players/" ++ idText)])) = false
          ∨ (fetchSinglePlayer id w).1 = .ok undefined)
      ∧ (addNewPlayer playerObj w).1 = .ok ()
      ∧ (removePlayer id w).1 = .ok () := by
  refine ⟨fetchAllPlayers_returns w, ?_, ?_, ?_, ?_, ?_⟩
  · refine JS.tryCatch_returns _ _ (fun e w1 => ⟨undefined, ?_⟩) w
    simp [JS.bind_eq, JS.pure_eq, JS.andThen, interpolate, JS.lift, JS.raise, JS.ret, consoleError, JS.ret, hid]
  · cases h : requestOrParseFailed
        (w.net (w.requests ++ [getRequest (API_URL ++ "/players")])) with
    | false => exact Or.inl rfl
    | true => exact Or.inr (fetchAllPlayers_failed w h)
  · cases h : requestOrParseFailed
        (w.net (w.requests ++ [getRequest (API_URL ++ "/players/" ++ idText)])) with
    | false => exact Or.inl rfl
    | true => exact Or.inr (fetchSinglePlayer_failed w id idText hid h)
  · obtain ⟨a, ha⟩ := JS.tryCatch_returns _ _
      (consoleError_returns "Oops, something went wrong with adding that player!") w
    exact ha
  · have hh : ∀ (e : Thrown) (w1 : World), ∃ a, ((fun err => do
          let idText ← interpolate id
          consoleError ("Whoops, trouble removing player #" ++ idText ++ " from the roster!")
            err : Thrown → JS Unit) e w1).1 = .ok a := by
      intro e w1
      refine ⟨(), ?_⟩
      simp [JS.bind_eq, JS.andThen, interpolate, JS.lift, JS.raise, JS.ret, consoleError, hid]
    obtain ⟨a, ha⟩ := JS.tryCatch_returns _ _ hh w
    exact ha

/-- Instance of amended C3: player 2 in front of the unreachable service. -/
theorem api_client_never_raises_witness :
    toStr (num 2 (by decide)) = some "2"
      ∧ (∃ v, (fetchAllPlayers offline).1 = .ok v)
      ∧ (∃ v, (fetchSinglePlayer (num 2 (by decide)) offline).1 = .ok v)
      ∧ (requestOrParseFailed
            (offline.net (offline.requests ++ [getRequest (API_URL ++ "/players")])) = false
          ∨ (fetchAllPlayers offline).1 = .ok undefined)
      ∧ (requestOrParseFailed
            (offline.net (offline.requests ++ [getRequest (API_URL ++ "/players/" ++ "2")]))
              = false
          ∨ (fetchSinglePlayer (num 2 (by decide)) offline).1 = .ok undefined)
      ∧ (addNewPlayer undefined offline).1 = .ok ()
      ∧ (removePlayer (num 2 (by decide)) offline).1 = .ok () :=
  ⟨rfl, api_client_never_raises offline (num 2 (by decide)) undefined "2" rfl⟩

/-! ## Refresh after a mutation -/

theorem fetchAllPlayers_frame (w : World) :
    ∃ v, (fetchAllPlayers w).1 = .ok v
      ∧ (fetchAllPlayers w).2.calls = w.calls ++ [Call.fetchAllPlayers v]
      ∧ (fetchAllPlayers w).2.requests = w.requests ++ [getRequest (API_URL ++ "/players")]
      ∧ (fetchAllPlayers w).2.net = w.net
      ∧ (fetchAllPlayers w).2.main = w.main
      ∧ (fetchAllPlayers w).2.form = w.form := by
  cases hnet : w.net (w.requests ++ [getRequest (API_URL ++ "/players")]) with
  | rejected =>
    simp [fetchAllPlayers, JS.bind_eq, JS.pure_eq, JS.andThen, JS.tryCatch, fetch,
      consoleError, JS.ret, record, hnet]
  | resolved res =>
    cases hjson : res.json with
    | none =>
      simp [fetchAllPlayers, JS.bind_eq, JS.pure_eq, JS.andThen, JS.tryCatch, fetch,
        Response.parse, JS.raise, consoleError, JS.ret, record, hnet, hjson]
    | some r =>
      cases hdata : getProp r "data" with
      | error e =>
        simp [fetchAllPlayers, JS.bind_eq, JS.pure_eq, JS.andThen, JS.tryCatch, fetch,
          Response.parse, prop, JS.lift, consoleError, JS.ret, record, hnet, hjson, hdata]
      | ok inner =>
        cases hplayers : getProp inner "players" with
        | error e =>
          simp [fetchAllPlayers, JS.bind_eq, JS.pure_eq, JS.andThen, JS.tryCatch, fetch,
            Response.parse, prop, JS.lift, consoleError, JS.ret, record, hnet, hjson, hdata,
            hplayers]
        | ok players =>
          simp [fetchAllPlayers, JS.bind_eq, JS.pure_eq, JS.andThen, JS.tryCatch, fetch,
            Response.parse, prop, JS.lift, consoleError, JS.ret, record, hnet, hjson, hdata,
            hplayers]

theorem Quiet.andThen {α β : Type} (x : JS α) (f : α → JS β)
    (hx : Quiet x) (hf : ∀ a, Quiet (f a)) : Quiet (JS.andThen x f) := by
  intro w
  unfold JS.andThen
  rcases hxw : x w with ⟨r, w1⟩
  have h1 := hx w
  rw [hxw] at h1
  cases r with
  | ok a =>
    have h2 := hf a w1
    simp only
    exact ⟨h2.1.trans h1.1, h2.2.1.trans h1.2.1, h2.2.2.trans h1.2.2⟩
  | error e => exact h1

theorem Quiet.forEach {α : Type} (f : α → JS Unit) (hf : ∀ a, Quiet (f a)) (xs : List α) :
    Quiet (JS.forEach f xs) := by
  induction xs with
  | nil => intro w; exact ⟨rfl, rfl, rfl⟩
  | cons x rest ih => exact Quiet.andThen _ _ (hf x) (fun _ => ih)

theorem Quiet.lift {α : Type} (x : Except Thrown α) : Quiet (JS.lift x) :=
  fun _ => ⟨rfl, rfl, rfl⟩

theorem Quiet.interpolate (v : JSVal) : Quiet (interpolate v) := by
  intro w
  unfold PuppyBowl.interpolate
  cases toStr v <;> exact ⟨rfl, rfl, rfl⟩

theorem Quiet.appendPlayerCard (player : JSVal) : Quiet (appendPlayerCard player) := by
  unfold PuppyBowl.appendPlayerCard
  simp only [JS.bind_eq, prop]
  refine Quiet.andThen _ _ (Quiet.lift _) (fun name => ?_)
  refine Quiet.andThen _ _ (Quiet.interpolate _) (fun nameText => ?_)
  refine Quiet.andThen _ _ (Quiet.lift _) (fun id => ?_)
  refine Quiet.andThen _ _ (Quiet.interpolate _) (fun idText => ?_)
  refine Quiet.andThen _ _ (Quiet.lift _) (fun imageUrl => ?_)
  refine Quiet.andThen _ _ (Quiet.interpolate _) (fun imageText => ?_)
  exact fun w => ⟨rfl, rfl, rfl⟩

theorem renderAllPlayers_shape_frame (c : Call) (body : JS Unit) (hbody : Quiet body)
    (w : World) :
    ((JS.andThen (record c) fun _ =>
        JS.andThen (mainReplaceChildren []) fun _ =>
        JS.andThen body fun _ =>
        JS.andThen (addClickListenerToClass "getDetails" .seeDetails) fun _ =>
          addClickListenerToClass "removePlayer" .removeFromRoster) w).2.calls
        = w.calls ++ [c]
      ∧ ((JS.andThen (record c) fun _ =>
        JS.andThen (mainReplaceChildren []) fun _ =>
        JS.andThen body fun _ =>
        JS.andThen (addClickListenerToClass "getDetails" .seeDetails) fun _ =>
          addClickListenerToClass "removePlayer" .removeFromRoster) w).2.requests
        = w.requests
      ∧ ((JS.andThen (record c) fun _ =>
        JS.andThen (mainReplaceChildren []) fun _ =>
        JS.andThen body fun _ =>
        JS.andThen (addClickListenerToClass "getDetails" .seeDetails) fun _ =>
          addClickListenerToClass "removePlayer" .removeFromRoster) w).2.net
        = w.net := by
  have hrest : Quiet (JS.andThen (mainReplaceChildren []) fun _ =>
      JS.andThen body fun _ =>
      JS.andThen (addClickListenerToClass "getDetails" .seeDetails) fun _ =>
        addClickListenerToClass "removePlayer" .removeFromRoster) := by
    refine Quiet.andThen _ _ (fun w => ⟨rfl, rfl, rfl⟩) (fun _ => ?_)
    refine Quiet.andThen _ _ hbody (fun _ => ?_)
    exact Quiet.andThen _ _ (fun w => ⟨rfl, rfl, rfl⟩) (fun _ => fun w => ⟨rfl, rfl, rfl⟩)
  exact hrest { w with calls := w.calls ++ [c] }

theorem renderAllPlayers_frame (v : JSVal) (w : World) :
    (renderAllPlayers v w).2.calls = w.calls ++ [Call.renderAllPlayers v]
      ∧ (renderAllPlayers v w).2.requests = w.requests
      ∧ (renderAllPlayers v w).2.net = w.net := by
  cases v
  case arr players =>
    exact renderAllPlayers_shape_frame _ _ (Quiet.forEach _ Quiet.appendPlayerCard players) w
  all_goals exact renderAllPlayers_shape_frame _ _ (fun w => ⟨rfl, rfl, rfl⟩) w

/-- A mutation request followed by the refresh, inside `try`, with a `catch` that logs
`msg`: the first request sent is the mutation; when it resolves the refresh contract
holds, when it rejects nothing is called and exactly the network error is logged. -/
theorem mutate_then_refresh (req : Request) (msg : String) (w : World) :
    ((JS.tryCatch
        (JS.andThen (fetch req) fun _ =>
          JS.andThen fetchAllPlayers fun players => renderAllPlayers players)
        (fun err => consoleError msg err) w).2.requests.take (w.requests.length + 1)
        = w.requests ++ [req])
      ∧ (match w.net (w.requests ++ [req]) with
          | .resolved _ =>
            RefreshedOnce w (JS.tryCatch
              (JS.andThen (fetch req) fun _ =>
                JS.andThen fetchAllPlayers fun players => renderAllPlayers players)
              (fun err => consoleError msg err) w).2
          | .rejected =>
            (JS.tryCatch
              (JS.andThen (fetch req) fun _ =>
                JS.andThen fetchAllPlayers fun players => renderAllPlayers players)
              (fun err => consoleError msg err) w).2.calls = w.calls
            ∧ (JS.tryCatch
              (JS.andThen (fetch req) fun _ =>
                JS.andThen fetchAllPlayers fun players => renderAllPlayers players)
              (fun err => consoleError msg err) w).2.console
                = w.console ++ [(msg, Thrown.networkError)]) := by
  cases hnet : w.net (w.requests ++ [req]) with
  | rejected =>
    simp [JS.tryCatch, JS.andThen, fetch, hnet, consoleError]
  | resolved res =>
    obtain ⟨v, h1, hc, hr, -, -, -⟩ :=
      fetchAllPlayers_frame { w with requests := w.requests ++ [req] }
    have hf : fetchAllPlayers { w with requests := w.requests ++ [req] }
        = (.ok v, (fetchAllPlayers { w with requests := w.requests ++ [req] }).2) :=
      Prod.ext h1 rfl
    obtain ⟨gc, gr, -⟩ :=
      renderAllPlayers_frame v (fetchAllPlayers { w with requests := w.requests ++ [req] }).2
    rcases hrender :
      renderAllPlayers v (fetchAllPlayers { w with requests := w.requests ++ [req] }).2
      with ⟨r, w3⟩
    rw [hrender] at gc gr
    simp only at gc gr
    have hcalls : w3.calls = w.calls ++ [Call.fetchAllPlayers v, Call.renderAllPlayers v] := by
      rw [gc, hc]; simp
    have hreqs : w3.requests = w.requests ++ [req, getRequest (API_URL ++ "/players")] := by
      rw [gr, hr]; simp
    have hbody : (JS.andThen (fetch req) fun _ =>
          JS.andThen fetchAllPlayers fun players => renderAllPlayers players) w = (r, w3) := by
      simp only [JS.andThen, fetch, hnet]
      rw [hf]
      simp only
      rw [hrender]
    cases r with
    | ok u =>
      simp only [JS.tryCatch, hbody]
      refine ⟨?_, v, hcalls⟩
      rw [hreqs]
      simp [List.take_append_eq_append_take]
    | error e =>
      simp only [JS.tryCatch, hbody, consoleError]
      refine ⟨?_, v, hcalls⟩
      rw [hreqs]
      simp [List.take_append_eq_append_take]

theorem addNewPlayer_shape (playerObj : JSVal) (w : World)
    (nameText breedText statusText imageText teamText : String)
    (hobj : playerObj.isNullish = false)
    (hname : toStr (field playerObj "name") = some nameText)
    (hbreed : toStr (field playerObj "breed") = some breedText)
    (hstatus : toStr (field playerObj "status") = some statusText)
    (himage : toStr (field playerObj "imageUrl") = some imageText)
    (hteam : toStr (field playerObj "teamId") = some teamText) :
    addNewPlayer playerObj w
      = JS.tryCatch
          (JS.andThen (fetch
            { method := "POST"
              url := API_URL ++ "/players"
              headers := jsonHeaders
              body := some (jsonStringify (obj
                [ ("name", str nameText),
                  ("breed", str breedText),
                  ("status", str statusText),
                  ("imageUrl", str imageText),
                  ("teamId", str teamText) ])) }) fun _ =>
            JS.andThen fetchAllPlayers fun players => renderAllPlayers players)
          (fun err => consoleError "Oops, something went wrong with adding that player!" err)
          w := by
  simp only [addNewPlayer, JS.bind_eq, prop, interpolate, getProp_of_not_nullish _ _ hobj,
    hname, hbreed, hstatus, himage, hteam, JS.tryCatch, JS.andThen, JS.lift, JS.ret]

theorem removePlayer_shape (id : JSVal) (idText : String) (w : World)
    (hid : toStr id = some idText) :
    removePlayer id w
      = JS.tryCatch
          (JS.andThen (fetch
            { method := "DELETE"
              url := API_URL ++ "/players/" ++ idText
              headers := jsonHeaders
              body := none }) fun _ =>
            JS.andThen fetchAllPlayers fun players => renderAllPlayers players)
          (fun err => consoleError
            ("Whoops, trouble removing player #" ++ idText ++ " from the roster!") err)
          w := by
  simp only [removePlayer, JS.bind_eq, interpolate, hid, JS.tryCatch, JS.andThen, JS.ret]

/-- C1, as stated, fails: with the service unreachable the mutation request rejects, the
`catch` block runs, and neither `fetchAllPlayers` nor `renderAllPlayers` is called by
`addNewPlayer` or by `removePlayer`; the same happens in front of a reachable service when
`addNewPlayer` is handed `undefined`, because building the request body throws. -/
theorem refresh_skipped_when_mutation_rejects :
    ¬ RefreshedOnce offline (addNewPlayer rex offline).2
      ∧ ¬ RefreshedOnce offline (removePlayer (num 1 (by decide)) offline).2
      ∧ ¬ RefreshedOnce serving (addNewPlayer undefined serving).2
      ∧ (addNewPlayer rex offline).2.console
          = [("Oops, something went wrong with adding that player!", Thrown.networkError)]
      ∧ (removePlayer (num 1 (by decide)) offline).2.console
          = [("Whoops, trouble removing player #1 from the roster!", Thrown.networkError)] := by
  refine ⟨?_, ?_, ?_, rfl, rfl⟩
  · rintro ⟨v, hv⟩
    have h : (addNewPlayer rex offline).2.calls = [] := rfl
    rw [h] at hv
    simp [offline, freshWorld] at hv
  · rintro ⟨v, hv⟩
    have h : (removePlayer (num 1 (by decide)) offline).2.calls = [] := rfl
    rw [h] at hv
    simp [offline, freshWorld] at hv
  · rintro ⟨v, hv⟩
    have h : (addNewPlayer undefined serving).2.calls = [] := rfl
    rw [h] at hv
    simp [serving, freshWorld] at hv

/-- C1, amended. For `addNewPlayer p` with `p` neither `undefined` nor `null` and with string
forms for its five fields, and for `removePlayer id` with `id` having a string form: when
the mutation request resolves (whatever its HTTP status), `fetchAllPlayers` is called
exactly once and `renderAllPlayers` exactly once, with the value that call yielded; when
the mutation request rejects, neither is called and the `catch` block logs exactly one
line, the operation's message with the network error. -/
theorem refresh_after_resolved_mutation (w : World) (playerObj id : JSVal)
    (nameText breedText statusText imageText teamText idText : String)
    (hobj : playerObj.isNullish = false)
    (hname : toStr (field playerObj "name") = some nameText)
    (hbreed : toStr (field playerObj "breed") = some breedText)
    (hstatus : toStr (field playerObj "status") = some statusText)
    (himage : toStr (field playerObj "imageUrl") = some imageText)
    (hteam : toStr (field playerObj "teamId") = some teamText)
    (hid : toStr id = some idText) :
    (match firstOutcome w (addNewPlayer playerObj w).2 with
      | .resolved _ => RefreshedOnce w (addNewPlayer playerObj w).2
      | .rejected =>
        (addNewPlayer playerObj w).2.calls = w.calls
          ∧ (addNewPlayer playerObj w).2.console
            = w.console ++ [("Oops, something went wrong with adding that player!",
                Thrown.networkError)])
      ∧ (match firstOutcome w (removePlayer id w).2 with
        | .resolved _ => RefreshedOnce w (removePlayer id w).2
        | .rejected =>
          (removePlayer id w).2.calls = w.calls
            ∧ (removePlayer id w).2.console
              = w.console ++ [("Whoops, trouble removing player #" ++ idText
                  ++ " from the roster!", Thrown.networkError)]) := by
  constructor
  · rw [addNewPlayer_shape playerObj w nameText breedText statusText imageText teamText hobj
      hname hbreed hstatus himage hteam]
    have h := mutate_then_refresh
      { method := "POST"
        url := API_URL ++ "/players"
        headers := jsonHeaders
        body := some (jsonStringify (obj
          [ ("name", str nameText),
            ("breed", str breedText),
            ("status", str statusText),
            ("imageUrl", str imageText),
            ("teamId", str teamText) ])) }
      "Oops, something went wrong with adding that player!" w
    unfold firstOutcome
    rw [h.1]
    exact h.2
  · rw [removePlayer_shape id idText w hid]
    have h := mutate_then_refresh
      { method := "DELETE"
        url := API_URL ++ "/players/" ++ idText
        headers := jsonHeaders
        body := none }
      ("Whoops, trouble removing player #" ++ idText ++ " from the roster!") w
    unfold firstOutcome
    rw [h.1]
    exact h.2

/-- Instance of amended C1: in front of the reachable service both mutations refresh once. -/
theorem refresh_after_resolved_mutation_witness :
    rex.isNullish = false
      ∧ toStr (field rex "name") = some "Rex"
      ∧ toStr (field rex "breed") = some "undefined"
      ∧ toStr (field rex "status") = some "undefined"
      ∧ toStr (field rex "imageUrl") = some "x.png"
      ∧ toStr (field rex "teamId") = some "undefined"
      ∧ toStr (num 1 (by decide)) = some "1"
      ∧ RefreshedOnce serving (addNewPlayer rex serving).2
      ∧ RefreshedOnce serving (removePlayer (num 1 (by decide)) serving).2 :=
  ⟨rfl, rfl, rfl, rfl, rfl, rfl, rfl,
    refresh_after_resolved_mutation serving rex (num 1 (by decide))
      "Rex" "undefined" "undefined" "x.png" "undefined" "1" rfl rfl rfl rfl rfl rfl rfl⟩

/-! ## Absent and empty player lists -/

/-- C2, on the code. With the empty array `renderAllPlayers` returns and leaves `<main>`
without any child, so no message is shown; with `undefined` it clears `<main>` and then
throws a `TypeError`. -/
theorem renderAllPlayers_without_players (w : World) :
    (renderAllPlayers (arr []) w).1 = .ok ()
      ∧ (renderAllPlayers (arr []) w).2.main = []
      ∧ (renderAllPlayers undefined w).1 = .error .typeError
      ∧ (renderAllPlayers undefined w).2.main = [] :=
  ⟨rfl, rfl, rfl, rfl⟩

theorem renderSinglePlayer_offline (id : JSVal) :
    (renderSinglePlayer id offline).1 = .error .typeError := by
  cases hid : toStr id with
  | none =>
    simp [renderSinglePlayer, fetchSinglePlayer, JS.bind_eq, JS.pure_eq, JS.andThen,
      JS.tryCatch, interpolate, JS.raise, hid]
  | some idText =>
    simp [renderSinglePlayer, fetchSinglePlayer, JS.bind_eq, JS.pure_eq, JS.andThen,
      JS.tryCatch, fetch, interpolate, JS.lift, consoleError, JS.ret, prop, getProp, hid,
      offline, freshWorld]

/-- C4, on the code. When the service cannot be reached, `fetchAllPlayers` yields
`undefined`, `init` rejects with a `TypeError` after clearing `<main>` and never renders the
form; and `fetchSinglePlayer(1)` yields `undefined`, on which `renderSinglePlayer` rejects
with a `TypeError`, as it does for every other id. -/
theorem views_raise_on_absent_result (id : JSVal) :
    (fetchAllPlayers offline).1 = .ok undefined
      ∧ (init offline).1 = .error .typeError
      ∧ (init offline).2.main = []
      ∧ (init offline).2.form.controls = []
      ∧ (init offline).2.form.submitListeners = 0
      ∧ (fetchSinglePlayer (num 1 (by decide)) offline).1 = .ok undefined
      ∧ (renderSinglePlayer (num 1 (by decide)) offline).1 = .error .typeError
      ∧ (renderSinglePlayer id offline).1 = .error .typeError :=
  ⟨rfl, rfl, rfl, rfl, rfl, rfl, rfl, renderSinglePlayer_offline id⟩

/-! ## The list view -/

theorem interpolate_of_some (v : JSVal) (s : String) (h : toStr v = some s) :
    interpolate v = JS.ret s := by
  simp [interpolate, h]

theorem plainText_spec (v : JSVal) (h : plainText v = true) :
    toStr v = some (textOf v) ∧ markupFree (textOf v) = true := by
  unfold plainText at h
  unfold textOf
  cases hs : toStr v with
  | none => simp [hs] at h
  | some s => simpa [hs] using h

theorem plainToken_spec (v : JSVal) (h : plainToken v = true) :
    toStr v = some (textOf v) ∧ markupFree (textOf v) = true
      ∧ (textOf v).data.all (fun c => !htmlSpace c) = true := by
  unfold plainToken at h
  unfold textOf
  cases hs : toStr v with
  | none => simp [hs] at h
  | some s =>
    rw [hs] at h
    simp only [Bool.and_eq_true] at h
    exact ⟨rfl, h.1, h.2⟩

theorem dropWhile_of_none (p : Char → Bool) (l : List Char)
    (h : l.all (fun c => !p c) = true) : l.dropWhile p = l := by
  cases l with
  | nil => rfl
  | cons c cs =>
    have hc : p c = false := by
      have := (List.all_eq_true.mp h) c (List.mem_cons_self _ _)
      simpa using this
    simp [List.dropWhile, hc]

theorem takeWhile_of_all (p : Char → Bool) (l : List Char)
    (h : l.all p = true) : l.takeWhile p = l := by
  induction l with
  | nil => rfl
  | cons c cs ih =>
    have hc : p c = true := (List.all_eq_true.mp h) c (List.mem_cons_self _ _)
    have hcs : cs.all p = true :=
      List.all_eq_true.mpr (fun x hx => (List.all_eq_true.mp h) x (List.mem_cons_of_mem _ hx))
    simp [List.takeWhile, hc, ih hcs]

/-- An unquoted attribute value without white space is taken as it stands. -/
theorem unquotedValue_of_token (s : String)
    (h : s.data.all (fun c => !htmlSpace c) = true) : unquotedValue s = s := by
  unfold unquotedValue
  rw [dropWhile_of_none htmlSpace s.data h, takeWhile_of_all _ s.data h]

theorem forEach_appendPlayerCard (players : List JSVal)
    (hp : ∀ p ∈ players, plainPlayer p = true) (w : World) :
    JS.forEach appendPlayerCard players w
      = (.ok (), { w with main := w.main ++ players.map (fun player =>
          ({ classes := ["card"]
             parsed := true
             imgSrc := textOf (field player "imageUrl")
             imgAlt := textOf (field player "name")
             heading := textOf (field player "name")
             paragraphs := ["Player ID: " ++ textOf (field player "id")]
             buttons :=
               [ { classes := ["getDetails"], id := textOf (field player "id"),
                   text := "Get Details", listeners := [] },
                 { classes := ["removePlayer"], id := textOf (field player "id"),
                   text := "Remove from Roster", listeners := [] } ] } : Card)) }) := by
  induction players generalizing w with
  | nil => simp [JS.forEach, JS.ret]
  | cons p rest ih =>
    have hplain := hp p (List.mem_cons_self _ _)
    unfold plainPlayer at hplain
    simp only [Bool.and_eq_true, Bool.not_eq_true'] at hplain
    obtain ⟨⟨⟨hpn, hn⟩, hi⟩, hu⟩ := hplain
    obtain ⟨hn1, hn2⟩ := plainText_spec _ hn
    obtain ⟨hi1, hi2, hi3⟩ := plainToken_spec _ hi
    obtain ⟨hu1, hu2⟩ := plainText_spec _ hu
    have hrest : ∀ q ∈ rest, plainPlayer q = true :=
      fun q hq => hp q (List.mem_cons_of_mem _ hq)
    simp only [JS.forEach, JS.andThen, appendPlayerCard, JS.bind_eq, prop,
      getProp_of_not_nullish _ _ hpn, JS.lift, interpolate_of_some _ _ hn1,
      interpolate_of_some _ _ hi1, interpolate_of_some _ _ hu1, JS.ret, mainAppendChild,
      hn2, hi2, hu2, unquotedValue_of_token _ hi3, Bool.and_self]
    rw [ih hrest]
    simp

theorem renderAllPlayers_main (players : List JSVal)
    (hp : ∀ p ∈ players, plainPlayer p = true) (w : World) :
    (renderAllPlayers (arr players) w).1 = .ok ()
      ∧ (renderAllPlayers (arr players) w).2.main = players.map listedCard := by
  simp only [renderAllPlayers, JS.bind_eq, JS.andThen, record, mainReplaceChildren,
    forEach_appendPlayerCard players hp, addClickListenerToClass]
  simp [listedCard, Button.listenIfClass]

theorem fetchSinglePlayer_of_string_form (v : JSVal) (s : String) (h : toStr v = some s) :
    fetchSinglePlayer (str s) = fetchSinglePlayer v := by
  have h2 : toStr (str s) = some s := rfl
  simp only [fetchSinglePlayer, interpolate_of_some _ _ h, interpolate_of_some _ _ h2]

theorem renderSinglePlayer_of_string_form (v : JSVal) (s : String) (h : toStr v = some s) :
    renderSinglePlayer (str s) = renderSinglePlayer v := by
  simp only [renderSinglePlayer, fetchSinglePlayer_of_string_form v s h]

theorem removePlayer_of_string_form (v : JSVal) (s : String) (h : toStr v = some s) :
    removePlayer (str s) = removePlayer v := by
  have h2 : toStr (str s) = some s := rfl
  simp only [removePlayer, interpolate_of_some _ _ h, interpolate_of_some _ _ h2]

/-- C7, as stated, fails: a player whose id holds a blank gets a card (parsed exactly: no
markup character is involved) whose two buttons carry only the part of the id before the
blank, because the template writes `id=` without quotes; a click on "Get Details" then
requests `/players/a`, where `renderSinglePlayer` on the player's id requests
`/players/a b`. -/
theorem unquoted_id_is_cut_at_blank :
    toStr (field spaced "id") = some "a b"
      ∧ (renderAllPlayers (arr [spaced]) staleList).2.main.map
          (fun c => (c.parsed, c.buttons.map (fun b => (b.id, b.listeners))))
        = [(true, [("a", [Listener.seeDetails]), ("a", [Listener.removeFromRoster])])]
      ∧ (Listener.run .seeDetails "a" offline).2.requests.map (fun r => r.url)
        = ["https://fsa-puppy-bowl.herokuapp.com/api/2501-ftb-et-web-pt/players/a"]
      ∧ (renderSinglePlayer (field spaced "id") offline).2.requests.map (fun r => r.url)
        = ["https://fsa-puppy-bowl.herokuapp.com/api/2501-ftb-et-web-pt/players/a b"] :=
  ⟨rfl, rfl, rfl, rfl⟩

/-- C7, amended. Whatever `<main>` held, after `renderAllPlayers players` on an array of
plain players (neither `undefined` nor `null`, with name, id and image address having
string forms free of markup characters, the id's also free of white space) `<main>` has
exactly one child per player, and for every position `i` the `i`-th child is a card,
parsed exactly, showing the `i`-th player's name and id, with exactly one `getDetails`
button and exactly one `removePlayer` button; each carries the string form of the
player's id as its `id` attribute and exactly one click listener, which runs
`renderSinglePlayer`, respectively `removePlayer`, on that attribute, and that is the
same program as the call with the player's id itself. -/
theorem renderAllPlayers_one_card_per_player (w : World) (players : List JSVal)
    (hp : ∀ p ∈ players, plainPlayer p = true) (i : Nat) (hi : i < players.length) :
    (renderAllPlayers (arr players) w).1 = .ok ()
      ∧ (renderAllPlayers (arr players) w).2.main.length = players.length
      ∧ ∃ card details remove,
          (renderAllPlayers (arr players) w).2.main.get? i = some card
            ∧ card.classes = ["card"]
            ∧ card.parsed = true
            ∧ toStr (field (players.get ⟨i, hi⟩) "name") = some card.heading
            ∧ toStr (field (players.get ⟨i, hi⟩) "id") = some details.id
            ∧ card.paragraphs = ["Player ID: " ++ details.id]
            ∧ card.buttonsOfClass "getDetails" = [details]
            ∧ details.listeners = [Listener.seeDetails]
            ∧ Listener.run .seeDetails details.id
                = renderSinglePlayer (field (players.get ⟨i, hi⟩) "id")
            ∧ card.buttonsOfClass "removePlayer" = [remove]
            ∧ remove.id = details.id
            ∧ remove.listeners = [Listener.removeFromRoster]
            ∧ Listener.run .removeFromRoster remove.id
                = removePlayer (field (players.get ⟨i, hi⟩) "id") := by
  obtain ⟨hok, hmain⟩ := renderAllPlayers_main players hp w
  have hplain := hp (players.get ⟨i, hi⟩) (List.get_mem _ _ _)
  unfold plainPlayer at hplain
  simp only [Bool.and_eq_true, Bool.not_eq_true'] at hplain
  obtain ⟨⟨⟨-, hn⟩, hid⟩, -⟩ := hplain
  obtain ⟨hn1, -⟩ := plainText_spec _ hn
  obtain ⟨hi1, -, -⟩ := plainToken_spec _ hid
  refine ⟨hok, by rw [hmain, List.length_map], ?_⟩
  refine ⟨listedCard (players.get ⟨i, hi⟩),
    { classes := ["getDetails"], id := textOf (field (players.get ⟨i, hi⟩) "id"),
      text := "Get Details", listeners := [.seeDetails] },
    { classes := ["removePlayer"], id := textOf (field (players.get ⟨i, hi⟩) "id"),
      text := "Remove from Roster", listeners := [.removeFromRoster] }, ?_, rfl, rfl, hn1, hi1,
    rfl, ?_, rfl, ?_, ?_, rfl, rfl, ?_⟩
  · rw [hmain, List.get?_eq_getElem?, List.getElem?_map, List.getElem?_eq_getElem hi]
    rfl
  · simp [Card.buttonsOfClass, listedCard]
  · exact renderSinglePlayer_of_string_form _ _ hi1
  · simp [Card.buttonsOfClass, listedCard]
  · exact removePlayer_of_string_form _ _ hi1

/-- Instance of amended C7: two players over a stale page; the second card is the second
player. -/
theorem renderAllPlayers_one_card_per_player_witness :
    (∀ p ∈ [rex, bella], plainPlayer p = true)
      ∧ (renderAllPlayers (arr [rex, bella]) staleList).1 = .ok ()
      ∧ (renderAllPlayers (arr [rex, bella]) staleList).2.main.length = 2
      ∧ ∃ card details remove,
          (renderAllPlayers (arr [rex, bella]) staleList).2.main.get? 1 = some card
            ∧ card.classes = ["card"]
            ∧ card.parsed = true
            ∧ some "Bella" = some card.heading
            ∧ some "2" = some details.id
            ∧ card.paragraphs = ["Player ID: " ++ details.id]
            ∧ card.buttonsOfClass "getDetails" = [details]
            ∧ details.listeners = [Listener.seeDetails]
            ∧ Listener.run .seeDetails details.id = renderSinglePlayer (num 2 (by decide))
            ∧ card.buttonsOfClass "removePlayer" = [remove]
            ∧ remove.id = details.id
            ∧ remove.listeners = [Listener.removeFromRoster]
            ∧ Listener.run .removeFromRoster remove.id = removePlayer (num 2 (by decide)) :=
  ⟨by intro p hp; simp at hp; rcases hp with rfl | rfl <;> rfl,
    renderAllPlayers_one_card_per_player staleList [rex, bella]
      (by intro p hp; simp at hp; rcases hp with rfl | rfl <;> rfl) 1 (by decide)⟩

/-! ## The detail view -/

theorem strictEq_num_iff (t : JSVal) (n : Int) (h : n.natAbs ≤ maxSafeInteger) :
    strictEq t (num n h) = true ↔ t = num n h := by
  cases t <;> simp [strictEq]

theorem strictEq_str_iff (t : JSVal) (s : String) : strictEq t (str s) = true ↔ t = str s := by
  cases t <;> simp [strictEq]

theorem renderSinglePlayer_paragraphs (w : World) (id player : JSVal)
    (imageText nameText idText breedText : String)
    (hfetch : (fetchSinglePlayer id w).1 = .ok player) (hp : player.isNullish = false)
    (himage : toStr (field player "imageUrl") = some imageText)
    (hname : toStr (field player "name") = some nameText)
    (hid : toStr (field player "id") = some idText)
    (hbreed : toStr (field player "breed") = some breedText) :
    (renderSinglePlayer id w).1 = .ok ()
      ∧ (renderSinglePlayer id w).2.main.map Card.paragraphs
        = [[ "Player ID: " ++ idText,
             "Breed: " ++ breedText,
             "Team: " ++
               (if strictEq (field player "teamId") (num 4943 (by decide)) then "Fluff"
                else if strictEq (field player "teamId") (num 4942 (by decide)) then "Ruff"
                else "None"),
             "Status: " ++
               (if strictEq (field player "status") (str "field") then "Field"
                else if strictEq (field player "status") (str "bench") then "Bench"
                else "None") ]] := by
  rcases hf : fetchSinglePlayer id w with ⟨r, w1⟩
  rw [hf] at hfetch
  simp only at hfetch
  subst hfetch
  simp only [renderSinglePlayer, JS.bind_eq, JS.andThen, hf, prop,
    getProp_of_not_nullish _ _ hp, JS.lift, interpolate_of_some _ _ himage,
    interpolate_of_some _ _ hname, interpolate_of_some _ _ hid,
    interpolate_of_some _ _ hbreed, JS.ret, mainReplaceChildren, addClickListenerToId,
    listenFirstCard, listenFirstButton]
  simp

/-! ## Decimal renderings -/

theorem digitChar_isDigit (m : Nat) (h : m < 10) : (Nat.digitChar m).isDigit = true := by
  interval_cases m <;> rfl

theorem toDigitsCore_isDigit (fuel : Nat) :
    ∀ (n : Nat) (acc : List Char), (∀ c ∈ acc, c.isDigit = true) →
      ∀ c ∈ Nat.toDigitsCore 10 fuel n acc, c.isDigit = true := by
  induction fuel with
  | zero => intro n acc hacc; simpa [Nat.toDigitsCore] using hacc
  | succ fuel ih =>
    intro n acc hacc
    have hd : (Nat.digitChar (n % 10)).isDigit = true :=
      digitChar_isDigit _ (Nat.mod_lt _ (by decide))
    have hacc2 : ∀ c ∈ Nat.digitChar (n % 10) :: acc, c.isDigit = true := by
      intro c hc
      rcases List.mem_cons.mp hc with rfl | hc
      · exact hd
      · exact hacc c hc
    simp only [Nat.toDigitsCore]
    split
    · exact hacc2
    · exact ih _ _ hacc2

theorem nat_repr_isDigit (n : Nat) : ∀ c ∈ (Nat.repr n).data, c.isDigit = true := by
  simpa [Nat.repr, Nat.toDigits, List.asString] using
    toDigitsCore_isDigit (n + 1) n [] (by simp)

/-- Every character of the decimal rendering of an integer is a digit or the sign. -/
theorem int_toString_chars (n : Int) :
    ∀ c ∈ (toString n).data, c.isDigit = true ∨ c = '-' := by
  cases n with
  | ofNat m =>
    intro c hc
    exact Or.inl (nat_repr_isDigit m c hc)
  | negSucc m =>
    intro c hc
    have hs : (toString (Int.negSucc m)).data = '-' :: (Nat.repr (m + 1)).data := rfl
    rw [hs] at hc
    rcases List.mem_cons.mp hc with rfl | hc
    · exact Or.inr rfl
    · exact Or.inl (nat_repr_isDigit _ c hc)

/-- None of the labels of the detail view is the rendering of a number. -/
theorem label_ne_number (label : String)
    (h : label = "Fluff" ∨ label = "Ruff" ∨ label = "None" ∨ label = "Field"
      ∨ label = "Bench") (n : Int) : label ≠ toString n := by
  intro heq
  have hchars := int_toString_chars n
  have hdata : (toString n).data = label.data := by
    rw [heq]
  rw [hdata] at hchars
  rcases h with rfl | rfl | rfl | rfl | rfl
  · exact absurd (hchars 'F' (by decide)) (by decide)
  · exact absurd (hchars 'R' (by decide)) (by decide)
  · exact absurd (hchars 'N' (by decide)) (by decide)
  · exact absurd (hchars 'F' (by decide)) (by decide)
  · exact absurd (hchars 'B' (by decide)) (by decide)

/-! ## Labels of the detail view -/

/-- C8, as stated, fails: a fetched player on team 4943 whose name has no string form makes
the card's template literal throw after the label was computed; `renderSinglePlayer`
rejects, `<main>` keeps its stale card and no team line is shown. -/
theorem team_label_not_shown_without_name :
    (fetchSinglePlayer (num 3 (by decide)) servingUnnamed).1 = .ok unnamed
      ∧ unnamed.isNullish = false
      ∧ field unnamed "teamId" = num 4943 (by decide)
      ∧ (renderSinglePlayer (num 3 (by decide)) servingUnnamed).1 = .error .typeError
      ∧ (renderSinglePlayer (num 3 (by decide)) servingUnnamed).2.main = staleList.main
      ∧ (renderSinglePlayer (num 3 (by decide)) servingUnnamed).2.main.map
          (fun c => c.paragraphs.get? 2) = [none] :=
  ⟨rfl, rfl, rfl, rfl, rfl, rfl⟩

/-- C8, amended. For every player `fetchSinglePlayer` yields (a value that is neither
`undefined` nor `null`) whose image address, name, id and breed have string forms,
`renderSinglePlayer` leaves exactly one card in `<main>` whose team line is `Team: `
followed by `Fluff` when `teamId` is the number 4943, by `Ruff` when it is the number 4942,
and by `None` for every other or missing `teamId`; the label is never `undefined` and
never the rendering of a number. -/
theorem team_label_of_fetched_player (w : World) (id player : JSVal)
    (imageText nameText idText breedText : String)
    (hfetch : (fetchSinglePlayer id w).1 = .ok player) (hp : player.isNullish = false)
    (himage : toStr (field player "imageUrl") = some imageText)
    (hname : toStr (field player "name") = some nameText)
    (hid : toStr (field player "id") = some idText)
    (hbreed : toStr (field player "breed") = some breedText) :
    ∃ label,
      (renderSinglePlayer id w).2.main.map (fun c => c.paragraphs.get? 2)
          = [some ("Team: " ++ label)]
        ∧ ((field player "teamId" = num 4943 (by decide) ∧ label = "Fluff")
          ∨ (field player "teamId" = num 4942 (by decide) ∧ label = "Ruff")
          ∨ (field player "teamId" ≠ num 4943 (by decide)
              ∧ field player "teamId" ≠ num 4942 (by decide) ∧ label = "None"))
        ∧ label ≠ "undefined"
        ∧ ∀ n : Int, label ≠ toString n := by
  obtain ⟨-, hpar⟩ := renderSinglePlayer_paragraphs w id player imageText nameText idText
    breedText hfetch hp himage hname hid hbreed
  have hmap : (renderSinglePlayer id w).2.main.map (fun c => c.paragraphs.get? 2)
      = ((renderSinglePlayer id w).2.main.map Card.paragraphs).map (fun ps => ps.get? 2) := by
    rw [List.map_map]; rfl
  rw [hmap, hpar]
  by_cases h1 : field player "teamId" = num 4943 (by decide)
  · refine ⟨"Fluff", ?_, Or.inl ⟨h1, rfl⟩, by decide,
      label_ne_number _ (Or.inl rfl)⟩
    simp [h1, strictEq]
  · by_cases h2 : field player "teamId" = num 4942 (by decide)
    · refine ⟨"Ruff", ?_, Or.inr (Or.inl ⟨h2, rfl⟩), by decide,
        label_ne_number _ (Or.inr (Or.inl rfl))⟩
      simp [h2, strictEq]
    · refine ⟨"None", ?_, Or.inr (Or.inr ⟨h1, h2, rfl⟩), by decide,
        label_ne_number _ (Or.inr (Or.inr (Or.inl rfl)))⟩
      have e1 : strictEq (field player "teamId") (num 4943 (by decide)) = false := by
        rw [Bool.eq_false_iff]
        exact fun h => h1 ((strictEq_num_iff _ _ _).mp h)
      have e2 : strictEq (field player "teamId") (num 4942 (by decide)) = false := by
        rw [Bool.eq_false_iff]
        exact fun h => h2 ((strictEq_num_iff _ _ _).mp h)
      simp [e1, e2]

/-- Instance of amended C8: a fetched player on team 4943. -/
theorem team_label_of_fetched_player_witness :
    (fetchSinglePlayer (num 2 (by decide)) serving).1 = .ok bella
      ∧ bella.isNullish = false
      ∧ toStr (field bella "imageUrl") = some "b.png"
      ∧ toStr (field bella "name") = some "Bella"
      ∧ toStr (field bella "id") = some "2"
      ∧ toStr (field bella "breed") = some "Beagle"
      ∧ ∃ label,
        (renderSinglePlayer (num 2 (by decide)) serving).2.main.map
            (fun c => c.paragraphs.get? 2) = [some ("Team: " ++ label)]
          ∧ ((field bella "teamId" = num 4943 (by decide) ∧ label = "Fluff")
            ∨ (field bella "teamId" = num 4942 (by decide) ∧ label = "Ruff")
            ∨ (field bella "teamId" ≠ num 4943 (by decide)
                ∧ field bella "teamId" ≠ num 4942 (by decide) ∧ label = "None"))
          ∧ label ≠ "undefined"
          ∧ ∀ n : Int, label ≠ toString n :=
  ⟨rfl, rfl, rfl, rfl, rfl, rfl,
    team_label_of_fetched_player serving (num 2 (by decide)) bella "b.png" "Bella" "2" "Beagle"
      rfl rfl rfl rfl rfl rfl⟩

/-- C9, as stated, fails: a fetched player on the field whose name has no string form
makes the card's template literal throw after the label was computed;
`renderSinglePlayer` rejects, `<main>` keeps its stale card and no status line is shown. -/
theorem status_label_not_shown_without_name :
    (fetchSinglePlayer (num 3 (by decide)) servingUnnamed).1 = .ok unnamed
      ∧ unnamed.isNullish = false
      ∧ field unnamed "status" = str "field"
      ∧ (renderSinglePlayer (num 3 (by decide)) servingUnnamed).1 = .error .typeError
      ∧ (renderSinglePlayer (num 3 (by decide)) servingUnnamed).2.main = staleList.main
      ∧ (renderSinglePlayer (num 3 (by decide)) servingUnnamed).2.main.map
          (fun c => c.paragraphs.get? 3) = [none] :=
  ⟨rfl, rfl, rfl, rfl, rfl, rfl⟩

/-- C9, amended. For every player `fetchSinglePlayer` yields (a value that is neither
`undefined` nor `null`) whose image address, name, id and breed have string forms,
`renderSinglePlayer` leaves exactly one card in `<main>` whose status line is `Status: `
followed by `Field` when `status` is the string `field`, by `Bench` when it is the string
`bench`, and by `None` for every other or missing `status`. -/
theorem status_label_of_fetched_player (w : World) (id player : JSVal)
    (imageText nameText idText breedText : String)
    (hfetch : (fetchSinglePlayer id w).1 = .ok player) (hp : player.isNullish = false)
    (himage : toStr (field player "imageUrl") = some imageText)
    (hname : toStr (field player "name") = some nameText)
    (hid : toStr (field player "id") = some idText)
    (hbreed : toStr (field player "breed") = some breedText) :
    ∃ label,
      (renderSinglePlayer id w).2.main.map (fun c => c.paragraphs.get? 3)
          = [some ("Status: " ++ label)]
        ∧ ((field player "status" = str "field" ∧ label = "Field")
          ∨ (field player "status" = str "bench" ∧ label = "Bench")
          ∨ (field player "status" ≠ str "field" ∧ field player "status" ≠ str "bench"
              ∧ label = "None")) := by
  obtain ⟨-, hpar⟩ := renderSinglePlayer_paragraphs w id player imageText nameText idText
    breedText hfetch hp himage hname hid hbreed
  have hmap : (renderSinglePlayer id w).2.main.map (fun c => c.paragraphs.get? 3)
      = ((renderSinglePlayer id w).2.main.map Card.paragraphs).map (fun ps => ps.get? 3) := by
    rw [List.map_map]; rfl
  rw [hmap, hpar]
  by_cases h1 : field player "status" = str "field"
  · refine ⟨"Field", ?_, Or.inl ⟨h1, rfl⟩⟩
    simp [h1, strictEq]
  · by_cases h2 : field player "status" = str "bench"
    · refine ⟨"Bench", ?_, Or.inr (Or.inl ⟨h2, rfl⟩)⟩
      simp [h2, strictEq]
    · refine ⟨"None", ?_, Or.inr (Or.inr ⟨h1, h2, rfl⟩)⟩
      have e1 : strictEq (field player "status") (str "field") = false := by
        rw [Bool.eq_false_iff]
        exact fun h => h1 ((strictEq_str_iff _ _).mp h)
      have e2 : strictEq (field player "status") (str "bench") = false := by
        rw [Bool.eq_false_iff]
        exact fun h => h2 ((strictEq_str_iff _ _).mp h)
      simp [e1, e2]

/-- Instance of amended C9: a fetched player on the field. -/
theorem status_label_of_fetched_player_witness :
    (fetchSinglePlayer (num 1 (by decide)) staleList).1 = .ok bella
      ∧ bella.isNullish = false
      ∧ toStr (field bella "imageUrl") = some "b.png"
      ∧ toStr (field bella "name") = some "Bella"
      ∧ toStr (field bella "id") = some "2"
      ∧ toStr (field bella "breed") = some "Beagle"
      ∧ ∃ label,
        (renderSinglePlayer (num 1 (by decide)) staleList).2.main.map
            (fun c => c.paragraphs.get? 3) = [some ("Status: " ++ label)]
          ∧ ((field bella "status" = str "field" ∧ label = "Field")
            ∨ (field bella "status" = str "bench" ∧ label = "Bench")
            ∨ (field bella "status" ≠ str "field" ∧ field bella "status" ≠ str "bench"
                ∧ label = "None")) :=
  ⟨rfl, rfl, rfl, rfl, rfl, rfl,
    status_label_of_fetched_player staleList (num 1 (by decide)) bella "b.png" "Bella" "2"
      "Beagle" rfl rfl rfl rfl rfl rfl⟩

/-! ## The form's submit listener against `addNewPlayer` -/

theorem submitHandler_shape (f : FormValues) (w : World) :
    submitHandler f w
      = JS.tryCatch
          (JS.andThen (fetch
            { method := "POST"
              url := API_URL ++ "/players"
              headers := jsonHeaders
              body := some (jsonStringify (obj
                [ ("name", str f.playerName),
                  ("breed", str f.playerBreed),
                  ("status", str f.status.value),
                  ("imageUrl", str f.playerImageUrl),
                  ("teamId", toNumber f.team.value) ])) }) fun _ =>
            JS.andThen fetchAllPlayers fun players => renderAllPlayers players)
          (fun err => consoleError "Uh oh, trouble rendering the new player form!" err)
          w := by
  have hobj : (candidate f).isNullish = false := rfl
  have h1 : toStr (field (candidate f) "name") = some f.playerName := rfl
  have h2 : toStr (field (candidate f) "breed") = some f.playerBreed := rfl
  have h3 : toStr (field (candidate f) "status") = some f.status.value := rfl
  have h4 : toStr (field (candidate f) "imageUrl") = some f.playerImageUrl := rfl
  have h5 : field (candidate f) "teamId" = toNumber f.team.value := rfl
  simp only [submitHandler, JS.bind_eq, prop, getProp_of_not_nullish _ _ hobj,
    interpolate_of_some _ _ h1, interpolate_of_some _ _ h2, interpolate_of_some _ _ h3,
    interpolate_of_some _ _ h4, h5, JS.tryCatch, JS.andThen, JS.lift, JS.ret]

theorem submit_and_add_bodies (f : FormValues) (w : World) (teamText : String)
    (hteam : toStr (field (candidate f) "teamId") = some teamText)
    (heq : (submitHandler f w).2.requests = (addNewPlayer (candidate f) w).2.requests) :
    jsonStringify (obj
        [ ("name", str f.playerName),
          ("breed", str f.playerBreed),
          ("status", str f.status.value),
          ("imageUrl", str f.playerImageUrl),
          ("teamId", str teamText) ])
      = jsonStringify (obj
        [ ("name", str f.playerName),
          ("breed", str f.playerBreed),
          ("status", str f.status.value),
          ("imageUrl", str f.playerImageUrl),
          ("teamId", toNumber f.team.value) ]) := by
  have hs := (mutate_then_refresh
    { method := "POST"
      url := API_URL ++ "/players"
      headers := jsonHeaders
      body := some (jsonStringify (obj
        [ ("name", str f.playerName),
          ("breed", str f.playerBreed),
          ("status", str f.status.value),
          ("imageUrl", str f.playerImageUrl),
          ("teamId", toNumber f.team.value) ])) }
    "Uh oh, trouble rendering the new player form!" w).1
  have ha := (mutate_then_refresh
    { method := "POST"
      url := API_URL ++ "/players"
      headers := jsonHeaders
      body := some (jsonStringify (obj
        [ ("name", str f.playerName),
          ("breed", str f.playerBreed),
          ("status", str f.status.value),
          ("imageUrl", str f.playerImageUrl),
          ("teamId", str teamText) ])) }
    "Oops, something went wrong with adding that player!" w).1
  rw [← submitHandler_shape f w] at hs
  rw [← addNewPlayer_shape (candidate f) w f.playerName f.playerBreed f.status.value
    f.playerImageUrl teamText rfl rfl rfl rfl rfl hteam] at ha
  rw [heq, ha] at hs
  have hreq := List.append_cancel_left hs
  simpa only [List.cons.injEq, Request.mk.injEq, Option.some.injEq, and_true, true_and]
    using hreq

/-- C10, on the code. For every submission and every state of the page, the requests
sent by the submit listener differ from those sent by `addNewPlayer` on the same
candidate: the listener writes `teamId` into the body as a number (`null` for "No Team"),
`addNewPlayer` writes it as a string. For the form of the example the two bodies are
spelled out. -/
theorem submit_request_differs_from_addNewPlayer (f : FormValues) (w : World) :
    (submitHandler f w).2.requests ≠ (addNewPlayer (candidate f) w).2.requests
      ∧ (submitHandler rexForm serving).2.requests.map (fun r => r.body)
          = [ some (obj [("name", str "Rex"), ("breed", str "Lab"), ("status", str "bench"),
                ("imageUrl", str "x.png"), ("teamId", num 4943 (by decide))]),
              none ]
      ∧ (addNewPlayer (candidate rexForm) serving).2.requests.map (fun r => r.body)
          = [ some (obj [("name", str "Rex"), ("breed", str "Lab"), ("status", str "bench"),
                ("imageUrl", str "x.png"), ("teamId", str "4943")]),
              none ] := by
  refine ⟨?_, rfl, rfl⟩
  intro heq
  rcases f with ⟨n, b, u, s, t⟩
  cases t
  · have h := submit_and_add_bodies ⟨n, b, u, s, .fluff⟩ w "4943" rfl heq
    simp [jsonStringify, stringifyFields, TeamOption.value, toNumber, readDigits, digitValue,
      maxSafeInteger] at h
  · have h := submit_and_add_bodies ⟨n, b, u, s, .ruff⟩ w "4942" rfl heq
    simp [jsonStringify, stringifyFields, TeamOption.value, toNumber, readDigits, digitValue,
      maxSafeInteger] at h
  · have h := submit_and_add_bodies ⟨n, b, u, s, .noTeam⟩ w "NaN" rfl heq
    simp [jsonStringify, stringifyFields, TeamOption.value, toNumber, readDigits, digitValue]
      at h

end PuppyBowl
